import Mathlib

/-!
Verification development for the capture-macro repository.

The definitions below are a shallow embedding of the Python sources
`src/macro/models/macro_models.py`, `src/macro/core/macro_engine.py`,
`src/macro/core/image_matcher.py` and `src/macro/core/screen_capture.py`.

Modelling conventions:
* Python `int` pixel coordinates are modelled as `ℕ` (pixel coordinates are
  non-negative); other integers are `ℤ`.
* Python `float` configuration values are modelled as `ℚ`.  The single float
  comparison the engine performs, `steps_executed >= total_steps * 0.8`, agrees
  with the exact rational comparison for every step count below 2^50, so the
  rational embedding is faithful on the whole reachable range.
* `datetime` values are modelled by their `isoformat()` string, since the
  serializer stores exactly that string and `fromisoformat` inverts it.
* JSON dictionaries produced by `to_dict` are modelled as Lean structures whose
  fields are the keys `to_dict` writes; `from_dict` functions return `Option`
  because enum decoding (`ActionType(...)` etc.) can raise `ValueError`.
* Fallible external collaborators (screen capture, OpenCV, the input
  controller) are abstracted as explicit parameters/oracles; all control flow
  around them is translated from the source.
-/

namespace CaptureMacroSpec

/-! ## Enums from macro_models.py -/

/-- Model of `ActionType` enum of macro_models.py. -/
inductive ActionType
  | CLICK
  | IMAGE_CLICK
  | TYPE_TEXT
  | KEY_PRESS
  | SCROLL
  | WAIT
  | SEND_TELEGRAM
  | IF
  | ELSE
  | LOOP
  deriving DecidableEq

/-- The `.value` string of each `ActionType` member. -/
def ActionType.value : ActionType → String
  | .CLICK => "click"
  | .IMAGE_CLICK => "image_click"
  | .TYPE_TEXT => "type_text"
  | .KEY_PRESS => "key_press"
  | .SCROLL => "scroll"
  | .WAIT => "wait"
  | .SEND_TELEGRAM => "send_telegram"
  | .IF => "if"
  | .ELSE => "else"
  | .LOOP => "loop"

/-- Model of `ActionType(s)` enum construction: succeeds exactly on member values. -/
def ActionType.ofValue (s : String) : Option ActionType :=
  if s = "click" then some .CLICK
  else if s = "image_click" then some .IMAGE_CLICK
  else if s = "type_text" then some .TYPE_TEXT
  else if s = "key_press" then some .KEY_PRESS
  else if s = "scroll" then some .SCROLL
  else if s = "wait" then some .WAIT
  else if s = "send_telegram" then some .SEND_TELEGRAM
  else if s = "if" then some .IF
  else if s = "else" then some .ELSE
  else if s = "loop" then some .LOOP
  else none

/-- Model of `ImageSearchFailureAction` enum of macro_models.py. -/
inductive ImageSearchFailureAction
  | RESTART_SEQUENCE
  | SKIP_TO_NEXT
  | STOP_EXECUTION
  deriving DecidableEq

/-- The `.value` string of each `ImageSearchFailureAction` member. -/
def ImageSearchFailureAction.value : ImageSearchFailureAction → String
  | .RESTART_SEQUENCE => "restart_sequence"
  | .SKIP_TO_NEXT => "skip_to_next"
  | .STOP_EXECUTION => "stop_execution"

/-- Model of `ImageSearchFailureAction(s)` enum construction. -/
def ImageSearchFailureAction.ofValue (s : String) : Option ImageSearchFailureAction :=
  if s = "restart_sequence" then some .RESTART_SEQUENCE
  else if s = "skip_to_next" then some .SKIP_TO_NEXT
  else if s = "stop_execution" then some .STOP_EXECUTION
  else none

/-- Model of `ConditionType` enum of macro_models.py. -/
inductive ConditionType
  | IMAGE_FOUND
  | IMAGE_NOT_FOUND
  | ALWAYS
  deriving DecidableEq

/-- The `.value` string of each `ConditionType` member. -/
def ConditionType.value : ConditionType → String
  | .IMAGE_FOUND => "image_found"
  | .IMAGE_NOT_FOUND => "image_not_found"
  | .ALWAYS => "always"

/-- Model of `ConditionType(s)` enum construction. -/
def ConditionType.ofValue (s : String) : Option ConditionType :=
  if s = "image_found" then some .IMAGE_FOUND
  else if s = "image_not_found" then some .IMAGE_NOT_FOUND
  else if s = "always" then some .ALWAYS
  else none

/-! ## Data model structures (macro_models.py) -/

/-- Model of `ImageTemplate` dataclass.  `created_at` is the datetime's isoformat
string. -/
structure ImageTemplate where
  id : String
  name : String
  file_path : String
  threshold : ℚ
  created_at : String
  deriving DecidableEq

/-- Model of `MacroAction` dataclass: a flat record with one optional payload per
action type, exactly as in the source. -/
structure MacroAction where
  id : String
  action_type : ActionType
  enabled : Bool
  description : Option String
  image_template_id : Option String
  click_position : Option (ℕ × ℕ)
  selected_region : Option (ℕ × ℕ × ℕ × ℕ)
  drag_to_position : Option (ℕ × ℕ)
  text_input : Option String
  key_combination : Option (List String)
  scroll_direction : Option String
  scroll_amount : Option ℤ
  wait_seconds : Option ℚ
  telegram_message : Option String
  match_threshold : ℚ
  timeout_seconds : ℚ
  retry_count : ℤ
  on_image_not_found : ImageSearchFailureAction
  condition_type : Option ConditionType
  loop_count : Option ℤ
  loop_actions : Option (List String)
  if_actions : Option (List String)
  else_actions : Option (List String)
  deriving DecidableEq

/-- A `MacroAction` with the dataclass's default field values. -/
def MacroAction.mk0 (id : String) (ty : ActionType) : MacroAction :=
  { id := id
    action_type := ty
    enabled := true
    description := none
    image_template_id := none
    click_position := none
    selected_region := none
    drag_to_position := none
    text_input := none
    key_combination := none
    scroll_direction := none
    scroll_amount := none
    wait_seconds := none
    telegram_message := none
    match_threshold := 0.7
    timeout_seconds := 10
    retry_count := 3
    on_image_not_found := .STOP_EXECUTION
    condition_type := none
    loop_count := none
    loop_actions := none
    if_actions := none
    else_actions := none }

/-- Model of `MacroSequence` dataclass.  `loop_count` is ℕ: the run loop only compares
`loop_index < loop_count` starting from 0, so non-positive counts behave as
0. -/
structure MacroSequence where
  name : String
  description : String
  actions : List MacroAction
  loop_count : ℕ
  loop_delay : ℚ
  created_at : String
  modified_at : String
  deriving DecidableEq

/-- Model of `TelegramConfig` dataclass. -/
structure TelegramConfig where
  bot_token : String
  chat_id : String
  enabled : Bool
  deriving DecidableEq

/-- Model of `MacroConfig` dataclass.  `macro_sequence` is non-optional here because
`__post_init__` replaces `None` with a default sequence before any use. -/
structure MacroConfig where
  version : String
  image_templates : List ImageTemplate
  macro_sequence : MacroSequence
  telegram_config : TelegramConfig
  screenshot_save_path : String
  auto_save_interval : ℤ
  match_confidence_threshold : ℚ
  action_delay : ℚ
  deriving DecidableEq

/-- Model of `MacroConfig.get_image_template`: linear search by id. -/
def getImageTemplate (templates : List ImageTemplate) (template_id : String) :
    Option ImageTemplate :=
  templates.find? (fun t => t.id = template_id)

/-! ## JSON document form (the dictionaries written by `to_dict`) -/

/-- The dictionary written by `ImageTemplate.to_dict`. -/
structure ImageTemplateDict where
  id : String
  name : String
  file_path : String
  threshold : ℚ
  created_at : String
  deriving DecidableEq

/-- Model of `ImageTemplate.to_dict`. -/
def ImageTemplate.to_dict (t : ImageTemplate) : ImageTemplateDict :=
  { id := t.id
    name := t.name
    file_path := t.file_path
    threshold := t.threshold
    created_at := t.created_at }

/-- Model of `ImageTemplate.from_dict` (total: no enum decoding involved). -/
def ImageTemplate.from_dict (d : ImageTemplateDict) : ImageTemplate :=
  { id := d.id
    name := d.name
    file_path := d.file_path
    threshold := d.threshold
    created_at := d.created_at }

/-- The dictionary written by `MacroAction.to_dict`: enums become their value
strings, tuples/lists/floats are preserved. -/
structure MacroActionDict where
  id : String
  action_type : String
  enabled : Bool
  description : Option String
  image_template_id : Option String
  click_position : Option (ℕ × ℕ)
  selected_region : Option (ℕ × ℕ × ℕ × ℕ)
  drag_to_position : Option (ℕ × ℕ)
  text_input : Option String
  key_combination : Option (List String)
  scroll_direction : Option String
  scroll_amount : Option ℤ
  wait_seconds : Option ℚ
  telegram_message : Option String
  match_threshold : ℚ
  timeout_seconds : ℚ
  retry_count : ℤ
  on_image_not_found : String
  condition_type : Option String
  loop_count : Option ℤ
  loop_actions : Option (List String)
  if_actions : Option (List String)
  else_actions : Option (List String)
  deriving DecidableEq

/-- Model of `MacroAction.to_dict`. -/
def MacroAction.to_dict (a : MacroAction) : MacroActionDict :=
  { id := a.id
    action_type := a.action_type.value
    enabled := a.enabled
    description := a.description
    image_template_id := a.image_template_id
    click_position := a.click_position
    selected_region := a.selected_region
    drag_to_position := a.drag_to_position
    text_input := a.text_input
    key_combination := a.key_combination
    scroll_direction := a.scroll_direction
    scroll_amount := a.scroll_amount
    wait_seconds := a.wait_seconds
    telegram_message := a.telegram_message
    match_threshold := a.match_threshold
    timeout_seconds := a.timeout_seconds
    retry_count := a.retry_count
    on_image_not_found := a.on_image_not_found.value
    condition_type := a.condition_type.map ConditionType.value
    loop_count := a.loop_count
    loop_actions := a.loop_actions
    if_actions := a.if_actions
    else_actions := a.else_actions }

/-- Decoding of the `condition_type` entry: source line
`ConditionType(data["condition_type"]) if data.get("condition_type") else None`
(an empty string is falsy, hence decodes to `None`). -/
def decodeConditionType : Option String → Option (Option ConditionType)
  | none => some none
  | some s => if s = "" then some none else (ConditionType.ofValue s).map some

/-- Model of `MacroAction.from_dict`; `none` models a `ValueError` raised while
decoding one of the enum entries. -/
def MacroAction.from_dict (d : MacroActionDict) : Option MacroAction :=
  match ActionType.ofValue d.action_type,
      ImageSearchFailureAction.ofValue d.on_image_not_found,
      decodeConditionType d.condition_type with
  | some ty, some onf, some ct =>
    some
      { id := d.id
        action_type := ty
        enabled := d.enabled
        description := d.description
        image_template_id := d.image_template_id
        click_position := d.click_position
        selected_region := d.selected_region
        drag_to_position := d.drag_to_position
        text_input := d.text_input
        key_combination := d.key_combination
        scroll_direction := d.scroll_direction
        scroll_amount := d.scroll_amount
        wait_seconds := d.wait_seconds
        telegram_message := d.telegram_message
        match_threshold := d.match_threshold
        timeout_seconds := d.timeout_seconds
        retry_count := d.retry_count
        on_image_not_found := onf
        condition_type := ct
        loop_count := d.loop_count
        loop_actions := d.loop_actions
        if_actions := d.if_actions
        else_actions := d.else_actions }
  | _, _, _ => none

/-- The dictionary written by `MacroSequence.to_dict`. -/
structure MacroSequenceDict where
  name : String
  description : String
  actions : List MacroActionDict
  loop_count : ℕ
  loop_delay : ℚ
  created_at : String
  modified_at : String
  deriving DecidableEq

/-- Model of `MacroSequence.to_dict`. -/
def MacroSequence.to_dict (s : MacroSequence) : MacroSequenceDict :=
  { name := s.name
    description := s.description
    actions := s.actions.map MacroAction.to_dict
    loop_count := s.loop_count
    loop_delay := s.loop_delay
    created_at := s.created_at
    modified_at := s.modified_at }

/-- The list comprehension `[MacroAction.from_dict(a) for a in ...]`: a
decoding error anywhere aborts the whole load. -/
def decodeActions : List MacroActionDict → Option (List MacroAction)
  | [] => some []
  | d :: rest =>
    match MacroAction.from_dict d, decodeActions rest with
    | some a, some tail => some (a :: tail)
    | _, _ => none

/-- Model of `MacroSequence.from_dict`. -/
def MacroSequence.from_dict (d : MacroSequenceDict) : Option MacroSequence :=
  match decodeActions d.actions with
  | none => none
  | some acts =>
    some
      { name := d.name
        description := d.description
        actions := acts
        loop_count := d.loop_count
        loop_delay := d.loop_delay
        created_at := d.created_at
        modified_at := d.modified_at }

/-- The dictionary written by `TelegramConfig.to_dict`. -/
structure TelegramConfigDict where
  bot_token : String
  chat_id : String
  enabled : Bool
  deriving DecidableEq

/-- Model of `TelegramConfig.to_dict`. -/
def TelegramConfig.to_dict (c : TelegramConfig) : TelegramConfigDict :=
  { bot_token := c.bot_token, chat_id := c.chat_id, enabled := c.enabled }

/-- Model of `TelegramConfig.from_dict`. -/
def TelegramConfig.from_dict (d : TelegramConfigDict) : TelegramConfig :=
  { bot_token := d.bot_token, chat_id := d.chat_id, enabled := d.enabled }

/-- The dictionary written by `MacroConfig.to_dict`. -/
structure MacroConfigDict where
  version : String
  image_templates : List ImageTemplateDict
  macro_sequence : MacroSequenceDict
  telegram_config : TelegramConfigDict
  screenshot_save_path : String
  auto_save_interval : ℤ
  match_confidence_threshold : ℚ
  action_delay : ℚ
  deriving DecidableEq

/-- Model of `MacroConfig.to_dict`. -/
def MacroConfig.to_dict (c : MacroConfig) : MacroConfigDict :=
  { version := c.version
    image_templates := c.image_templates.map ImageTemplate.to_dict
    macro_sequence := c.macro_sequence.to_dict
    telegram_config := c.telegram_config.to_dict
    screenshot_save_path := c.screenshot_save_path
    auto_save_interval := c.auto_save_interval
    match_confidence_threshold := c.match_confidence_threshold
    action_delay := c.action_delay }

/-- Model of `MacroConfig.from_dict`.  The `macro_sequence` entry written by `to_dict`
is always a non-empty (hence truthy) dictionary, so the source's fallback
default sequence branch is not taken on `to_dict` output. -/
def MacroConfig.from_dict (d : MacroConfigDict) : Option MacroConfig :=
  match MacroSequence.from_dict d.macro_sequence with
  | none => none
  | some seq =>
    some
      { version := d.version
        image_templates := d.image_templates.map ImageTemplate.from_dict
        macro_sequence := seq
        telegram_config := TelegramConfig.from_dict d.telegram_config
        screenshot_save_path := d.screenshot_save_path
        auto_save_interval := d.auto_save_interval
        match_confidence_threshold := d.match_confidence_threshold
        action_delay := d.action_delay }

/-! ## Image matcher (image_matcher.py)

The OpenCV kernel (`cv2.matchTemplate` + `cv2.minMaxLoc` over the
Otsu-masked buffers) is abstracted as a parameter giving the min/max values
and their locations; everything from line 118 of image_matcher.py on — the
method-dependent confidence/location selection, the threshold test and the
result geometry — is translated from the source. -/

/-- Model of `MatchResult` of image_matcher.py. -/
structure MatchResult where
  found : Bool
  confidence : ℚ
  center_position : Option (ℕ × ℕ)
  top_left : Option (ℕ × ℕ)
  bottom_right : Option (ℕ × ℕ)
  template_size : Option (ℕ × ℕ)
  deriving DecidableEq

/-- Output of `cv2.minMaxLoc` on the correlation surface. -/
structure MinMaxLocResult where
  min_val : ℚ
  max_val : ℚ
  min_loc : ℕ × ℕ
  max_loc : ℕ × ℕ
  deriving DecidableEq

/-- The OpenCV template-matching methods distinguished by `match_template`. -/
inductive TMMethod
  | TM_SQDIFF
  | TM_SQDIFF_NORMED
  | TM_CCORR
  | TM_CCORR_NORMED
  | TM_CCOEFF
  | TM_CCOEFF_NORMED
  deriving DecidableEq

/-- Confidence selection of match_template: for the SQDIFF family the
minimum is the best match and confidence is `1 - min_val`; otherwise the raw
maximum correlation. -/
def tmConfidence (mm : MinMaxLocResult) : TMMethod → ℚ
  | .TM_SQDIFF => 1 - mm.min_val
  | .TM_SQDIFF_NORMED => 1 - mm.min_val
  | _ => mm.max_val

/-- Location selection of match_template (min location for the SQDIFF
family, max location otherwise). -/
def tmLocation (mm : MinMaxLocResult) : TMMethod → ℕ × ℕ
  | .TM_SQDIFF => mm.min_loc
  | .TM_SQDIFF_NORMED => mm.min_loc
  | _ => mm.max_loc

/-- Model of `ImageMatcher.match_template`, lines 118-160: classification against the
threshold and the bounding geometry of a found match.  `template_w`,
`template_h` are the (possibly cropped) template's pixel dimensions. -/
def match_template (mm : MinMaxLocResult) (template_w template_h : ℕ)
    (threshold : ℚ) (method : TMMethod) : MatchResult :=
  let match_confidence := tmConfidence mm method
  let match_location := tmLocation mm method
  if match_confidence ≥ threshold then
    { found := true
      confidence := match_confidence
      center_position :=
        some (match_location.1 + template_w / 2, match_location.2 + template_h / 2)
      top_left := some match_location
      bottom_right :=
        some (match_location.1 + template_w, match_location.2 + template_h)
      template_size := some (template_w, template_h) }
  else
    { found := false
      confidence := match_confidence
      center_position := none
      top_left := none
      bottom_right := none
      template_size := none }

/-- A decoded template pixel buffer, abstracted to its dimensions. -/
structure TemplateImage where
  width : ℕ
  height : ℕ
  deriving DecidableEq

/-- A captured screenshot pixel buffer, abstracted to its dimensions. -/
structure Screenshot where
  width : ℕ
  height : ℕ
  deriving DecidableEq

/-- The numpy slice `template[y1:y2, x1:x2]`: indices clamp to the buffer's
extent and an empty slice has size 0 (ℕ subtraction truncates). -/
def cropTemplate (t : TemplateImage) (x1 y1 x2 y2 : ℕ) : TemplateImage :=
  { width := min x2 t.width - min x1 t.width
    height := min y2 t.height - min y1 t.height }

/-- Model of `ImageMatcher.find_image_in_screenshot`.  `kernel` abstracts the
correlation surface OpenCV computes for a search area and a template; the
function passes the *full* screenshot (`search_area = screenshot`) and the
cropped template to it, calls `match_template` with the default
`TM_CCORR_NORMED` method, and re-applies the crop offset to a found match. -/
def find_image_in_screenshot (kernel : Screenshot → TemplateImage → MinMaxLocResult)
    (screenshot : Screenshot) (template : Option TemplateImage)
    (template_region : Option (ℕ × ℕ × ℕ × ℕ)) (threshold : ℚ) : MatchResult :=
  match template with
  | none =>
    { found := false, confidence := 0, center_position := none,
      top_left := none, bottom_right := none, template_size := none }
  | some t0 =>
    let search_area := screenshot
    let cropped :
        TemplateImage × ℕ × ℕ :=
      match template_region with
      | none => (t0, 0, 0)
      | some (x1, y1, x2, y2) => (cropTemplate t0 x1 y1 x2 y2, x1, y1)
    let t := cropped.1
    let offset_x := cropped.2.1
    let offset_y := cropped.2.2
    let result := match_template (kernel search_area t) t.width t.height
      threshold .TM_CCORR_NORMED
    -- offsets are re-applied only when `offset_x > 0 or offset_y > 0`;
    -- when both are 0 the skipped shift is the identity anyway
    if result.found ∧ (0 < offset_x ∨ 0 < offset_y) then
      { result with
        center_position :=
          result.center_position.map (fun p => (p.1 + offset_x, p.2 + offset_y))
        top_left :=
          result.top_left.map (fun p => (p.1 + offset_x, p.2 + offset_y))
        bottom_right :=
          result.bottom_right.map (fun p => (p.1 + offset_x, p.2 + offset_y)) }
    else result

/-! ## Engine state and step bookkeeping (macro_engine.py) -/

/-- One entry of `MacroExecutionResult.details` (the timestamp is not
modelled). -/
structure StepDetail where
  action_id : String
  success : Bool
  message : String
  deriving DecidableEq

/-- Model of `MacroExecutionResult` (the wall-clock `execution_time` is not
modelled). -/
structure MacroExecutionResult where
  success : Bool
  steps_executed : ℕ
  total_steps : ℕ
  error_message : String
  failed_action_id : String
  details : List StepDetail
  deriving DecidableEq

/-- Model of `MacroExecutionResult.add_step_result`: append a detail entry; a success
increments `steps_executed`, a failure records the failing action id and
message. -/
def MacroExecutionResult.add_step_result (r : MacroExecutionResult)
    (action_id : String) (success : Bool) (message : String) :
    MacroExecutionResult :=
  let r := { r with details := r.details ++ [StepDetail.mk action_id success message] }
  if success then { r with steps_executed := r.steps_executed + 1 }
  else { r with failed_action_id := action_id, error_message := message }

/-- Mutable engine attributes touched by the run loop.  `condition_results`
models the insertion-ordered Python dict `self._condition_results`;
`else_log` records the `else_result` values the ELSE handler computes (the
source only prints them), in execution order. -/
structure EngineState where
  stop_requested : Bool
  restart_requested : Bool
  condition_results : List (String × Bool)
  else_log : List Bool
  deriving DecidableEq

/-- Assignment `d[k] = v` on a Python (insertion-ordered) dict: an existing key keeps
its position, a new key is appended. -/
def dictSet (k : String) (v : Bool) : List (String × Bool) → List (String × Bool)
  | [] => [(k, v)]
  | (k', v') :: rest =>
    if k' = k then (k', v) :: rest else (k', v') :: dictSet k v rest

/-- Lookup `next(iter(reversed(list(d.values()))), None)`: the value stored at the
last position of the insertion-ordered dict. -/
def dictLastValue (d : List (String × Bool)) : Option Bool :=
  (d.map Prod.snd).getLast?

/-! ## Condition checking and the IF/ELSE handlers -/

/-- Errors a Python attribute access can raise. -/
inductive PyError
  | attributeError
  deriving DecidableEq

/-- The attribute access `self.screen_capture.capture_screenshot` performed
by `_check_condition` (macro_engine.py line 610).  The `ScreenCapture` class
in screen_capture.py defines only `get_scale_factor`, `get_monitors` and
`capture_full_screen` (plus private helpers), so this access raises
`AttributeError`.  The `Option` in the success payload stands for the
capture's own `pixel buffer | None` contract. -/
def ScreenCapture.capture_screenshot : Except PyError (Option Screenshot) :=
  .error .attributeError

/-- The image branch of `_check_condition` (`IMAGE_FOUND`/`IMAGE_NOT_FOUND`):
`wantFound` is `true` for `IMAGE_FOUND`.  `findFound` abstracts the outcome
the subsequent `find_image_in_screenshot` call would report; it is unreachable
because the screenshot attribute access raises first, and the surrounding
`try/except` converts the error to `False`. -/
def checkImageCondition (templates : List ImageTemplate) (findFound : Bool)
    (a : MacroAction) (wantFound : Bool) : Bool :=
  match a.image_template_id with
  | none => false
  | some tid =>
    match getImageTemplate templates tid with
    | none => false
    | some _ =>
      match ScreenCapture.capture_screenshot with
      | .error _ => false
      | .ok none => false
      | .ok (some _) => if wantFound then findFound else !findFound

/-- Model of `MacroEngine._check_condition`. -/
def checkCondition (templates : List ImageTemplate) (findFound : Bool)
    (a : MacroAction) : Bool :=
  match a.condition_type with
  | some .ALWAYS => true
  | some .IMAGE_FOUND => checkImageCondition templates findFound a true
  | some .IMAGE_NOT_FOUND => checkImageCondition templates findFound a false
  | none => false

/-- Model of `MacroEngine._execute_if_action`: a missing condition type fails the
step; otherwise the condition result is stored in the engine-level map under
the action's id and the IF step itself always succeeds. -/
def executeIfAction (templates : List ImageTemplate) (findFound : Bool)
    (st : EngineState) (a : MacroAction) : Bool × EngineState :=
  match a.condition_type with
  | none => (false, st)
  | some _ =>
    let condition_result := checkCondition templates findFound a
    (true,
      { st with
        condition_results := dictSet a.id condition_result st.condition_results })

/-- Model of `MacroEngine._execute_else_action`: with no recorded IF result the step
fails; otherwise the last value of the insertion-ordered map is negated (the
source only prints this `else_result`; the model appends it to `else_log`)
and the ELSE step itself succeeds. -/
def executeElseAction (st : EngineState) : Bool × EngineState :=
  match dictLastValue st.condition_results with
  | none => (false, st)
  | some last_if_result =>
    let else_result := !last_if_result
    (true, { st with else_log := st.else_log ++ [else_result] })

/-! ## Image-click execution and the failure policy -/

/-- Model of `MacroEngine._handle_image_search_failure`.  For `STOP_EXECUTION` the
handler calls `self.stop_execution()`, which sets the stop flag; the
subsequent self-join raises `RuntimeError`, which the `try/except` in
`_execute_action` converts into a `False` step result — the observable
outcome is the same `(false, stop set)`. -/
def handleImageSearchFailure (st : EngineState) (a : MacroAction) :
    Bool × EngineState :=
  match a.on_image_not_found with
  | .RESTART_SEQUENCE => (true, { st with restart_requested := true })
  | .SKIP_TO_NEXT => (true, st)
  | .STOP_EXECUTION => (false, { st with stop_requested := true })

/-- Outcomes of the external collaborators one `_execute_image_click_action`
invocation consults: template lookup in the config, the template file's
existence, the screenshot capture, the `find_image_in_screenshot` result and
the input controller's click. -/
structure ImageClickEnv where
  templateFound : Bool
  fileExists : Bool
  screenshotOk : Bool
  findResult : MatchResult
  clickOk : Bool

/-- Model of `MacroEngine._execute_image_click_action` (plain click variant).  The
third component is the absolute coordinate passed to
`input_controller.click`, when a click is issued.  A found match whose
`top_left` is `None` would raise on unpacking; the `try/except` in
`_execute_action` converts that to `False` (last branch). -/
def executeImageClickAction (env : ImageClickEnv) (st : EngineState)
    (a : MacroAction) : Bool × EngineState × Option (ℕ × ℕ) :=
  match a.image_template_id, a.click_position with
  | some _, some cp =>
    if env.templateFound = false then (false, st, none)
    else if env.fileExists = false then (false, st, none)
    else if env.screenshotOk = false then (false, st, none)
    else if env.findResult.found = false then
      let r := handleImageSearchFailure st a
      (r.1, r.2, none)
    else
      match env.findResult.top_left with
      | some match_top_left =>
        let actual_click_x := match_top_left.1 + cp.1
        let actual_click_y := match_top_left.2 + cp.2
        (env.clickOk, st, some (actual_click_x, actual_click_y))
      | none => (false, st, none)
  | _, _ => (false, st, none)

/-! ## The action dispatcher and the run loop -/

/-- Per-run outcomes of the remaining external collaborators, keyed by action
id: `imageClick` gives each IMAGE_CLICK (and IF) action its collaborator
outcomes, `prim` the success of the primitive input-controller call a
CLICK/TYPE_TEXT/KEY_PRESS/SCROLL/WAIT/SEND_TELEGRAM action performs. -/
structure ActionEnv where
  imageClick : String → ImageClickEnv
  prim : String → Bool
  telegramConfigured : Bool

/-- Model of `MacroEngine._execute_action`: the per-type dispatch table.  Empty-payload
shortcuts (`TYPE_TEXT`/`SEND_TELEGRAM` with no text succeed, `KEY_PRESS` with
no keys fails, `CLICK` with no position fails) are translated from the
handlers; `LOOP` has no dispatch entry and falls to the unsupported-type
branch. -/
def executeAction (env : ActionEnv) (templates : List ImageTemplate)
    (st : EngineState) (a : MacroAction) : Bool × EngineState :=
  match a.action_type with
  | .CLICK =>
    (match a.click_position with
     | some _ => env.prim a.id
     | none => false, st)
  | .IMAGE_CLICK =>
    let r := executeImageClickAction (env.imageClick a.id) st a
    (r.1, r.2.1)
  | .TYPE_TEXT =>
    (match a.text_input with
     | none => true
     | some s => if s = "" then true else env.prim a.id, st)
  | .KEY_PRESS =>
    (match a.key_combination with
     | none => false
     | some ks => if ks = [] then false else env.prim a.id, st)
  | .SCROLL => (env.prim a.id, st)
  | .WAIT => (env.prim a.id, st)
  | .SEND_TELEGRAM =>
    (match a.telegram_message with
     | none => true
     | some m =>
       if m = "" then true
       else if env.telegramConfigured = false then false
       else env.prim a.id, st)
  | .IF => executeIfAction templates ((env.imageClick a.id).findResult.found) st a
  | .ELSE => executeElseAction st
  | .LOOP => (false, st)

/-- The inner `for action in sequence.actions` loop of
`_execute_sequence_sync` (lines 246-272), generic in the action executor:
stop is checked before each action, disabled actions are skipped, each
executed action's outcome is recorded, and a restart request breaks the
loop after recording. -/
def innerLoop (exec : EngineState → MacroAction → Bool × EngineState) :
    EngineState → MacroExecutionResult → List MacroAction →
    EngineState × MacroExecutionResult
  | st, res, [] => (st, res)
  | st, res, a :: rest =>
    if st.stop_requested then (st, res)
    else if a.enabled = false then innerLoop exec st res rest
    else
      let step := exec st a
      let res' :=
        if step.1 then res.add_step_result a.id true "성공"
        else res.add_step_result a.id false ("액션 실행 실패: " ++ a.action_type.value)
      if step.2.restart_requested then (step.2, res')
      else innerLoop exec step.2 res' rest

/-- The outer `while loop_index < sequence.loop_count` loop (lines 236-278):
the index is incremented on entry, stop breaks the loop, and a restart
request clears the flag and resets the index to 0.  `fuel` bounds the number
of iterations; the Boolean reports whether the loop exited by itself
(`false` means fuel ran out while the loop would have continued). -/
def outerLoop (exec : EngineState → MacroAction → Bool × EngineState)
    (actions : List MacroAction) (loop_count : ℕ) :
    ℕ → ℕ → EngineState → MacroExecutionResult →
    EngineState × MacroExecutionResult × Bool
  | 0, loop_index, st, res =>
    if loop_index < loop_count then (st, res, false) else (st, res, true)
  | fuel' + 1, loop_index, st, res =>
    if loop_index < loop_count then
      if st.stop_requested then (st, res, true)
      else
        let pass := innerLoop exec st res actions
        if pass.1.restart_requested then
          outerLoop exec actions loop_count fuel' 0
            { pass.1 with restart_requested := false } pass.2
        else
          outerLoop exec actions loop_count fuel' (loop_index + 1) pass.1 pass.2
    else (st, res, true)

/-- The final success judgment of `_execute_sequence_sync` (lines 281-285):
`steps_executed > 0 and not stop_requested and steps_executed >= total_steps * 0.8`.
`(0.8 : ℚ)` is exact; the Python float comparison agrees with it on the whole
reachable range of step counts. -/
def successJudgment (steps_executed total_steps : ℕ) (stop_requested : Bool) :
    Bool :=
  decide (0 < steps_executed) && !stop_requested &&
    decide ((steps_executed : ℚ) ≥ (total_steps : ℚ) * 0.8)

/-- Model of `MacroEngine._execute_sequence_sync` body (without the wall-clock timing,
the signal emissions and the statistics bookkeeping): flags are cleared,
`total_steps` is set once to the full action-list length, the loop runs, and
on normal completion `success` is judged from the accumulated
`steps_executed`, the single-pass `total_steps` and the final stop flag.  The
returned Boolean is `outerLoop`'s completion flag; when it is `false` the
fuel ran out and the success judgment is not reached. -/
def executeSequenceSync (exec : EngineState → MacroAction → Bool × EngineState)
    (sequence : MacroSequence) (fuel : ℕ) (st0 : EngineState) :
    EngineState × MacroExecutionResult × Bool :=
  let st := { st0 with stop_requested := false, restart_requested := false }
  let res : MacroExecutionResult :=
    { success := false, steps_executed := 0,
      total_steps := sequence.actions.length, error_message := "",
      failed_action_id := "", details := [] }
  let t := outerLoop exec sequence.actions sequence.loop_count fuel 0 st res
  if t.2.2 then
    (t.1,
      { t.2.1 with
        success :=
          successJudgment t.2.1.steps_executed t.2.1.total_steps
            t.1.stop_requested },
      true)
  else t

/-- The rational comparison `steps_executed >= total_steps * 0.8` is
equivalent to the integer comparison `5 * steps_executed >= 4 * total_steps`
(and the Python float comparison agrees with both on the reachable range). -/
theorem successJudgment_eq (se ts : ℕ) (stop : Bool) :
    successJudgment se ts stop =
      (decide (0 < se) && !stop && decide (4 * ts ≤ 5 * se)) := by
  unfold successJudgment
  have h : ((se : ℚ) ≥ (ts : ℚ) * 0.8) ↔ (4 * ts ≤ 5 * se) := by
    rw [show (0.8 : ℚ) = 4 / 5 by norm_num, ge_iff_le, mul_div_assoc',
      div_le_iff₀ (by norm_num : (0 : ℚ) < 5)]
    rw [show ((se : ℚ) * 5) = ((5 * se : ℕ) : ℚ) by push_cast; ring,
      show ((ts : ℚ) * 4) = ((4 * ts : ℕ) : ℚ) by push_cast; ring]
    exact_mod_cast Iff.rfl
  simp only [h]

/-! ## Derived counting helpers and concrete instances used by witnesses -/

/-- Number of success entries in a details log. -/
def successCount (l : List StepDetail) : ℕ :=
  (l.filter (fun d => d.success)).length

/-- The engine's initial mutable state: no stop/restart request, empty
condition map (and empty observation log). -/
def stInit : EngineState := ⟨false, false, [], []⟩

/-- An action executor whose steps succeed exactly for the listed action ids
and that leaves the engine state untouched (e.g. CLICK actions whose
input-controller call is an oracle). -/
def oracleExec (ok : List String) :
    EngineState → MacroAction → Bool × EngineState :=
  fun st a => (ok.contains a.id, st)

/-- A sequence of ten enabled CLICK actions with ids "0".."9", one loop. -/
def seqTen : MacroSequence :=
  { name := "s", description := "",
    actions := (List.range 10).map (fun i => MacroAction.mk0 (toString i) .CLICK),
    loop_count := 1, loop_delay := 1, created_at := "", modified_at := "" }

/-- A one-action sequence with two loops. -/
def seqOne : MacroSequence :=
  { name := "s", description := "", actions := [MacroAction.mk0 "0" .CLICK],
    loop_count := 2, loop_delay := 1, created_at := "", modified_at := "" }

/-- A stored template referenced by the concrete image-click actions. -/
def tmplT : ImageTemplate := ⟨"tid", "t", "captures/t.png", 0.7, "2026-01-01T00:00:00"⟩

/-- A `MatchResult` reporting a failed search. -/
def noMatch : MatchResult :=
  { found := false, confidence := 0, center_position := none, top_left := none,
    bottom_right := none, template_size := none }

/-- Collaborator outcomes where the template and its file exist, the
screenshot succeeds, but the image search never finds the template. -/
def icEnvNotFound : ImageClickEnv :=
  { templateFound := true, fileExists := true, screenshotOk := true,
    findResult := noMatch, clickOk := true }

/-- Per-action environment: every image search fails, every primitive input
operation succeeds, Telegram is unconfigured. -/
def envNotFound : ActionEnv :=
  { imageClick := fun _ => icEnvNotFound, prim := fun _ => true,
    telegramConfigured := false }

/-- IMAGE_CLICK action with the `SKIP_TO_NEXT` failure policy. -/
def actSkip : MacroAction :=
  { MacroAction.mk0 "skip" .IMAGE_CLICK with
    image_template_id := some "tid", click_position := some (1, 1),
    on_image_not_found := .SKIP_TO_NEXT }

/-- IMAGE_CLICK action with the `RESTART_SEQUENCE` failure policy. -/
def actRestart : MacroAction :=
  { MacroAction.mk0 "r" .IMAGE_CLICK with
    image_template_id := some "tid", click_position := some (1, 1),
    on_image_not_found := .RESTART_SEQUENCE }

/-- A WAIT action (its input-controller sleep succeeds under
`envNotFound`). -/
def actNext : MacroAction := MacroAction.mk0 "next" .WAIT

/-- Two-action sequence: the skipping image click, then a wait. -/
def seqSkip : MacroSequence :=
  { name := "s", description := "", actions := [actSkip, actNext],
    loop_count := 1, loop_delay := 1, created_at := "", modified_at := "" }

/-- IF action with the `ALWAYS` condition. -/
def actIfAlways : MacroAction :=
  { MacroAction.mk0 "A" .IF with condition_type := some .ALWAYS }

/-- ELSE action. -/
def actElse : MacroAction := MacroAction.mk0 "B" .ELSE

/-- IF action with the `IMAGE_FOUND` condition on the stored template. -/
def actIfImage : MacroAction :=
  { MacroAction.mk0 "C" .IF with
    condition_type := some .IMAGE_FOUND
    image_template_id := some "tid" }

/-- Sequence IF(always); ELSE; IF(image-found), looped twice. -/
def seqIfElse : MacroSequence :=
  { name := "s", description := "", actions := [actIfAlways, actElse, actIfImage],
    loop_count := 2, loop_delay := 1, created_at := "", modified_at := "" }

/-- Collaborator outcomes for a successful match at top-left (100, 50). -/
def icEnvFound : ImageClickEnv :=
  { templateFound := true, fileExists := true, screenshotOk := true,
    findResult :=
      { found := true, confidence := 0.95, center_position := some (120, 70),
        top_left := some (100, 50), bottom_right := some (140, 90),
        template_size := some (40, 40) },
    clickOk := true }

/-- IMAGE_CLICK action whose click offset is (10, 5). -/
def actOffset : MacroAction :=
  { MacroAction.mk0 "o" .IMAGE_CLICK with
    image_template_id := some "tid", click_position := some (10, 5) }

/-- A fresh execution result for a two-step sequence. -/
def resInit : MacroExecutionResult :=
  { success := false, steps_executed := 0, total_steps := 2,
    error_message := "", failed_action_id := "", details := [] }

/-! ## Round-trip lemmas for the serialization (C9) -/

theorem actionType_ofValue_value (t : ActionType) :
    ActionType.ofValue t.value = some t := by
  cases t <;> rfl

theorem failureAction_ofValue_value (f : ImageSearchFailureAction) :
    ImageSearchFailureAction.ofValue f.value = some f := by
  cases f <;> rfl

theorem decodeConditionType_map_value (ct : Option ConditionType) :
    decodeConditionType (ct.map ConditionType.value) = some ct := by
  cases ct with
  | none => rfl
  | some c => cases c <;> rfl

theorem macroAction_from_to (a : MacroAction) :
    MacroAction.from_dict a.to_dict = some a := by
  obtain ⟨i, ty, en, de, itid, cp, sr, dp, ti, kc, sd, sa, ws, tm, mt, ts, rc,
    onf, ct, lc, la, ia, ea⟩ := a
  simp [MacroAction.to_dict, MacroAction.from_dict, actionType_ofValue_value,
    failureAction_ofValue_value, decodeConditionType_map_value]

theorem decodeActions_map_to_dict (l : List MacroAction) :
    decodeActions (l.map MacroAction.to_dict) = some l := by
  induction l with
  | nil => rfl
  | cons a rest ih =>
    simp [decodeActions, macroAction_from_to, ih]

theorem macroSequence_from_to (s : MacroSequence) :
    MacroSequence.from_dict s.to_dict = some s := by
  obtain ⟨n, d, acts, lc, ld, ca, ma⟩ := s
  simp [MacroSequence.to_dict, MacroSequence.from_dict, decodeActions_map_to_dict]

theorem imageTemplate_from_to (t : ImageTemplate) :
    ImageTemplate.from_dict t.to_dict = t := rfl

theorem telegramConfig_from_to (c : TelegramConfig) :
    TelegramConfig.from_dict c.to_dict = c := rfl

theorem templates_map_from_to (l : List ImageTemplate) :
    (l.map ImageTemplate.to_dict).map ImageTemplate.from_dict = l := by
  induction l with
  | nil => rfl
  | cons t rest ih => simp [ih, imageTemplate_from_to]

/-! ## Bookkeeping lemmas for the run loop -/

theorem add_step_result_true (r : MacroExecutionResult) (i m : String) :
    r.add_step_result i true m =
      { r with
        details := r.details ++ [StepDetail.mk i true m]
        steps_executed := r.steps_executed + 1 } := rfl

theorem add_step_result_false (r : MacroExecutionResult) (i m : String) :
    r.add_step_result i false m =
      { r with
        details := r.details ++ [StepDetail.mk i false m]
        failed_action_id := i
        error_message := m } := rfl

theorem successCount_append (l1 l2 : List StepDetail) :
    successCount (l1 ++ l2) = successCount l1 + successCount l2 := by
  simp [successCount, List.filter_append]

/-- Adding a step result keeps both step-accounting invariants: the success
counter equals the number of success entries in the details log, and
`total_steps` is untouched. -/
theorem add_step_result_inv (r : MacroExecutionResult) (i : String) (b : Bool)
    (m : String) (k : ℕ)
    (h : r.steps_executed = successCount r.details ∧ r.total_steps = k) :
    (r.add_step_result i b m).steps_executed =
        successCount (r.add_step_result i b m).details ∧
      (r.add_step_result i b m).total_steps = k := by
  cases b <;>
    simp [add_step_result_true, add_step_result_false, successCount_append,
      successCount, h.1, h.2]

/-- The inner action loop preserves any property of the accumulating result
that is stable under `add_step_result`. -/
theorem innerLoop_preserves (P : MacroExecutionResult → Prop)
    (hP : ∀ r i b m, P r → P (r.add_step_result i b m))
    (exec : EngineState → MacroAction → Bool × EngineState) :
    ∀ (actions : List MacroAction) (st : EngineState)
      (res : MacroExecutionResult), P res →
      P (innerLoop exec st res actions).2 := by
  intro actions
  induction actions with
  | nil => intro st res h; simpa [innerLoop] using h
  | cons a rest ih =>
    intro st res h
    by_cases h1 : st.stop_requested = true
    · simpa [innerLoop, h1] using h
    · by_cases h2 : a.enabled = false
      · simpa [innerLoop, h1, h2] using ih st res h
      · have hres' : P (if (exec st a).1 then res.add_step_result a.id true "성공"
            else res.add_step_result a.id false
              ("액션 실행 실패: " ++ a.action_type.value)) := by
          cases hok : (exec st a).1 <;> simp <;> exact hP _ _ _ _ h
        by_cases h3 : (exec st a).2.restart_requested = true <;>
          · simp only [innerLoop, h1, h2, h3, if_true, if_false,
              Bool.false_eq_true, reduceIte]
            first
            | exact hres'
            | exact ih _ _ hres'

/-- The outer loop preserves any property of the accumulating result that is
stable under `add_step_result`. -/
theorem outerLoop_preserves (P : MacroExecutionResult → Prop)
    (hP : ∀ r i b m, P r → P (r.add_step_result i b m))
    (exec : EngineState → MacroAction → Bool × EngineState)
    (actions : List MacroAction) (loop_count : ℕ) :
    ∀ (fuel loop_index : ℕ) (st : EngineState) (res : MacroExecutionResult),
      P res → P (outerLoop exec actions loop_count fuel loop_index st res).2.1 := by
  intro fuel
  induction fuel with
  | zero =>
    intro li st res h
    by_cases h1 : li < loop_count <;> simpa [outerLoop, h1] using h
  | succ fuel ih =>
    intro li st res h
    by_cases h1 : li < loop_count
    · by_cases h2 : st.stop_requested = true
      · simpa [outerLoop, h1, h2] using h
      · have hpass := innerLoop_preserves P hP exec actions st res h
        by_cases h3 : (innerLoop exec st res actions).1.restart_requested = true <;>
          · simp only [outerLoop, h1, h2, h3, if_true, if_false,
              Bool.false_eq_true, reduceIte]
            exact ih _ _ _ hpass
    · simpa [outerLoop, h1] using h

/-! ## Behaviour of image-click actions under the failure policies -/

theorem engineState_clear_restart (st : EngineState)
    (h : st.restart_requested = false) :
    ({ st with restart_requested := false } : EngineState) = st := by
  cases st
  simp_all

/-- Dispatching an enabled IMAGE_CLICK action whose search fails and whose
policy is `RESTART_SEQUENCE`: the step reports success and only the restart
flag changes. -/
theorem executeAction_restart (env : ActionEnv) (templates : List ImageTemplate)
    (a : MacroAction) (tid : String) (cp : ℕ × ℕ)
    (hty : a.action_type = .IMAGE_CLICK)
    (hid : a.image_template_id = some tid)
    (hcp : a.click_position = some cp)
    (honf : a.on_image_not_found = .RESTART_SEQUENCE)
    (htf : (env.imageClick a.id).templateFound = true)
    (hfe : (env.imageClick a.id).fileExists = true)
    (hso : (env.imageClick a.id).screenshotOk = true)
    (hnf : (env.imageClick a.id).findResult.found = false) :
    ∀ s, executeAction env templates s a =
      (true, { s with restart_requested := true }) := by
  intro s
  simp [executeAction, hty, executeImageClickAction, hid, hcp, htf, hfe, hso,
    hnf, handleImageSearchFailure, honf]

/-- Dispatching an enabled IMAGE_CLICK action whose search fails and whose
policy is `SKIP_TO_NEXT`: the step reports success and the state is
untouched. -/
theorem executeAction_skip (env : ActionEnv) (templates : List ImageTemplate)
    (a : MacroAction) (tid : String) (cp : ℕ × ℕ)
    (hty : a.action_type = .IMAGE_CLICK)
    (hid : a.image_template_id = some tid)
    (hcp : a.click_position = some cp)
    (honf : a.on_image_not_found = .SKIP_TO_NEXT)
    (htf : (env.imageClick a.id).templateFound = true)
    (hfe : (env.imageClick a.id).fileExists = true)
    (hso : (env.imageClick a.id).screenshotOk = true)
    (hnf : (env.imageClick a.id).findResult.found = false) :
    ∀ s, executeAction env templates s a = (true, s) := by
  intro s
  simp [executeAction, hty, executeImageClickAction, hid, hcp, htf, hfe, hso,
    hnf, handleImageSearchFailure, honf]

/-- One pass of the inner loop over `pre ++ a :: post`, where the actions of
`pre` succeed without touching the state and `a` requests a restart: every
step of `pre` and the step of `a` itself are recorded as successes, `post` is
not reached, and the pass ends with the restart flag set. -/
theorem innerLoop_restart (exec : EngineState → MacroAction → Bool × EngineState)
    (pre post : List MacroAction) (a : MacroAction) (st : EngineState)
    (res : MacroExecutionResult)
    (hpre : ∀ p ∈ pre, p.enabled = true ∧ ∀ s, exec s p = (true, s))
    (hstop : st.stop_requested = false)
    (hrst : st.restart_requested = false)
    (hena : a.enabled = true)
    (ha : exec st a = (true, { st with restart_requested := true })) :
    innerLoop exec st res (pre ++ a :: post) =
      ({ st with restart_requested := true },
        { res with
          details := res.details ++
            (pre.map (fun p => StepDetail.mk p.id true "성공") ++
              [StepDetail.mk a.id true "성공"])
          steps_executed := res.steps_executed + (pre.length + 1) }) := by
  induction pre generalizing res with
  | nil =>
    simp [innerLoop, hstop, hena, ha, add_step_result_true]
  | cons p pre ih =>
    have hp := hpre p (List.mem_cons_self p pre)
    have hrec := ih (res.add_step_result p.id true "성공")
      (fun q hq => hpre q (List.mem_cons_of_mem p hq))
    simp only [List.cons_append, innerLoop, hstop, Bool.false_eq_true,
      Bool.true_eq_false, reduceIte, hp.1, hp.2, hrst, add_step_result_true,
      List.append_eq] at hrec ⊢
    rw [hrec]
    simp [add_step_result_true, List.append_assoc]
    omega

/-- The outer loop over `pre ++ a :: post` where `a` always requests a
restart: every iteration re-enters from the first action with the loop index
reset to 0, each cycle records the `pre` steps and `a`'s own step as
successes, `post` is never reached, and the loop never completes by itself
(only fuel exhaustion — i.e. an external stop in the real system — ends
it). -/
theorem outerLoop_restart (exec : EngineState → MacroAction → Bool × EngineState)
    (pre post : List MacroAction) (a : MacroAction) (lc : ℕ) (st : EngineState)
    (res : MacroExecutionResult)
    (hpre : ∀ p ∈ pre, p.enabled = true ∧ ∀ s, exec s p = (true, s))
    (hstop : st.stop_requested = false)
    (hrst : st.restart_requested = false)
    (hena : a.enabled = true)
    (ha : exec st a = (true, { st with restart_requested := true }))
    (hlc : 0 < lc) :
    ∀ fuel, outerLoop exec (pre ++ a :: post) lc fuel 0 st res =
      (st,
        { res with
          details := res.details ++
            (List.replicate fuel
              (pre.map (fun p => StepDetail.mk p.id true "성공") ++
                [StepDetail.mk a.id true "성공"])).flatten
          steps_executed := res.steps_executed + fuel * (pre.length + 1) },
        false) := by
  intro fuel
  induction fuel generalizing res with
  | zero => simp [outerLoop, hlc]
  | succ fuel ih =>
    have hpass := innerLoop_restart exec pre post a st res hpre hstop hrst hena ha
    simp only [outerLoop, hlc, reduceIte, hstop, Bool.false_eq_true, hpass]
    have hclear : (EngineState.mk false false st.condition_results
        st.else_log) = st := by
      cases st
      simp_all
    rw [hclear, ih]
    simp [List.replicate_succ, List.append_assoc, Nat.succ_mul]
    omega

/-! ## Claim theorems -/

/-- C4: for every IF action whose condition type is `IMAGE_FOUND` or
`IMAGE_NOT_FOUND`, `_check_condition` returns false regardless of screen
contents, template or threshold: every early-exit path returns false, and on
the main path the `screen_capture.capture_screenshot()` attribute access
raises (the method does not exist on `ScreenCapture`) and the error is caught
and converted to false. -/
theorem c4_image_condition_always_false (templates : List ImageTemplate)
    (findFound : Bool) (a : MacroAction)
    (h : a.condition_type = some .IMAGE_FOUND ∨
      a.condition_type = some .IMAGE_NOT_FOUND) :
    checkCondition templates findFound a = false := by
  have himg : ∀ w, checkImageCondition templates findFound a w = false := by
    intro w
    unfold checkImageCondition
    rcases h1 : a.image_template_id with _ | tid
    · rfl
    · rcases h2 : getImageTemplate templates tid with _ | t <;>
        simp [h1, h2, ScreenCapture.capture_screenshot]
  rcases h with h | h <;> simp [checkCondition, h, himg]

theorem c4_witness :
    checkCondition [tmplT] true actIfImage = false :=
  c4_image_condition_always_false [tmplT] true actIfImage (Or.inl rfl)

/-- C6: when the template match succeeds, the coordinate passed to the input
controller equals the match's `top_left` plus the action's `click_position`,
componentwise. -/
theorem c6_click_offset (env : ImageClickEnv) (st : EngineState)
    (a : MacroAction) (tid : String) (cp tl : ℕ × ℕ)
    (hid : a.image_template_id = some tid)
    (hcp : a.click_position = some cp)
    (htf : env.templateFound = true)
    (hfe : env.fileExists = true)
    (hso : env.screenshotOk = true)
    (hfound : env.findResult.found = true)
    (htl : env.findResult.top_left = some tl) :
    executeImageClickAction env st a =
      (env.clickOk, st, some (tl.1 + cp.1, tl.2 + cp.2)) := by
  simp [executeImageClickAction, hid, hcp, htf, hfe, hso, hfound, htl]

theorem c6_click_offset_witness :
    executeImageClickAction icEnvFound stInit actOffset =
      (true, stInit, some (110, 55)) :=
  c6_click_offset icEnvFound stInit actOffset "tid" (10, 5) (100, 50)
    rfl rfl rfl rfl rfl rfl rfl

/-- C7: `match_template` classifies a match as found exactly when the
computed confidence is at least the threshold (equality counts as found),
and on a found match returns `top_left` at the best location,
`bottom_right = top_left + (w, h)`, `center_position = top_left + (w/2, h/2)`
and `template_size = (w, h)`, while on a miss it returns `found = false`
together with the achieved confidence and no geometry. -/
theorem c7_threshold_classification (mm : MinMaxLocResult) (w h : ℕ)
    (thr : ℚ) (method : TMMethod) :
    (match_template mm w h thr method).found =
        decide (tmConfidence mm method ≥ thr) ∧
      (match_template mm w h thr method).confidence = tmConfidence mm method ∧
      (match_template mm w h thr method).top_left =
        (if tmConfidence mm method ≥ thr then some (tmLocation mm method)
          else none) ∧
      (match_template mm w h thr method).bottom_right =
        (if tmConfidence mm method ≥ thr then
          some ((tmLocation mm method).1 + w, (tmLocation mm method).2 + h)
          else none) ∧
      (match_template mm w h thr method).center_position =
        (if tmConfidence mm method ≥ thr then
          some ((tmLocation mm method).1 + w / 2, (tmLocation mm method).2 + h / 2)
          else none) ∧
      (match_template mm w h thr method).template_size =
        (if tmConfidence mm method ≥ thr then some (w, h) else none) := by
  by_cases hc : tmConfidence mm method ≥ thr <;> simp [match_template, hc]

/-- C8: with a `template_region = (x1, y1, x2, y2)`, the crop is applied to
the template while the screenshot is searched in full, and each geometry
field of a found match is the cropped-template match result shifted by
`(x1, y1)` (on a miss all geometry fields stay empty). -/
theorem c8_region_offset (kernel : Screenshot → TemplateImage → MinMaxLocResult)
    (screenshot : Screenshot) (t : TemplateImage) (x1 y1 x2 y2 : ℕ) (thr : ℚ) :
    find_image_in_screenshot kernel screenshot (some t) (some (x1, y1, x2, y2)) thr =
      { found := (match_template (kernel screenshot (cropTemplate t x1 y1 x2 y2))
          (cropTemplate t x1 y1 x2 y2).width (cropTemplate t x1 y1 x2 y2).height
          thr .TM_CCORR_NORMED).found
        confidence := (match_template (kernel screenshot (cropTemplate t x1 y1 x2 y2))
          (cropTemplate t x1 y1 x2 y2).width (cropTemplate t x1 y1 x2 y2).height
          thr .TM_CCORR_NORMED).confidence
        center_position := (match_template (kernel screenshot (cropTemplate t x1 y1 x2 y2))
          (cropTemplate t x1 y1 x2 y2).width (cropTemplate t x1 y1 x2 y2).height
          thr .TM_CCORR_NORMED).center_position.map
            (fun p => (p.1 + x1, p.2 + y1))
        top_left := (match_template (kernel screenshot (cropTemplate t x1 y1 x2 y2))
          (cropTemplate t x1 y1 x2 y2).width (cropTemplate t x1 y1 x2 y2).height
          thr .TM_CCORR_NORMED).top_left.map
            (fun p => (p.1 + x1, p.2 + y1))
        bottom_right := (match_template (kernel screenshot (cropTemplate t x1 y1 x2 y2))
          (cropTemplate t x1 y1 x2 y2).width (cropTemplate t x1 y1 x2 y2).height
          thr .TM_CCORR_NORMED).bottom_right.map
            (fun p => (p.1 + x1, p.2 + y1))
        template_size := (match_template (kernel screenshot (cropTemplate t x1 y1 x2 y2))
          (cropTemplate t x1 y1 x2 y2).width (cropTemplate t x1 y1 x2 y2).height
          thr .TM_CCORR_NORMED).template_size } := by
  by_cases hc : tmConfidence (kernel screenshot (cropTemplate t x1 y1 x2 y2))
      TMMethod.TM_CCORR_NORMED ≥ thr
  · by_cases hxy : 0 < x1 ∨ 0 < y1
    · simp [find_image_in_screenshot, match_template, hc, hxy]
    · have hx1 : x1 = 0 := by omega
      have hy1 : y1 = 0 := by omega
      subst hx1; subst hy1
      simp [find_image_in_screenshot, match_template, hc]
  · simp [find_image_in_screenshot, match_template, hc]

/-- C9: serializing a `MacroConfig` to its JSON document form and
deserializing it back yields the same object; this holds for every config
(in particular those with templates, one action of each type and a
non-default telegram config), with every field, enum value and optional
tuple preserved. -/
theorem c9_roundtrip (c : MacroConfig) :
    MacroConfig.from_dict (MacroConfig.to_dict c) = some c := by
  obtain ⟨v, its, seq, tg, sp, ai, mc, ad⟩ := c
  simp [MacroConfig.to_dict, MacroConfig.from_dict,
    macroSequence_from_to, templates_map_from_to,
    telegramConfig_from_to, Function.comp_def,
    imageTemplate_from_to]

/-- C1: when `_execute_sequence_sync`'s run loop completes by itself (no
escaping exception, modelled by the fuel sufficing), `result.success` is
true iff `steps_executed > 0`, no stop was requested, and
`steps_executed >= 0.8 * total_steps`, equality counting as success; in
particular, for a single-loop sequence of 10 enabled actions, 8 successful
steps yield `success = true` and 7 yield `success = false`. -/
theorem c1_success_threshold
    (exec : EngineState → MacroAction → Bool × EngineState)
    (seq : MacroSequence) (fuel : ℕ) (st : EngineState)
    (hdone : (executeSequenceSync exec seq fuel st).2.2 = true) :
    ((executeSequenceSync exec seq fuel st).2.1.success =
      (decide (0 < (executeSequenceSync exec seq fuel st).2.1.steps_executed) &&
        !(executeSequenceSync exec seq fuel st).1.stop_requested &&
        decide (((executeSequenceSync exec seq fuel st).2.1.steps_executed : ℚ) ≥
          ((executeSequenceSync exec seq fuel st).2.1.total_steps : ℚ) * 0.8))) ∧
    (executeSequenceSync (oracleExec ["0", "1", "2", "3", "4", "5", "6", "7"])
      seqTen 1 stInit).2.1.success = true ∧
    (executeSequenceSync (oracleExec ["0", "1", "2", "3", "4", "5", "6"])
      seqTen 1 stInit).2.1.success = false := by
  refine ⟨?_, ?_, ?_⟩
  · simp only [executeSequenceSync] at hdone ⊢
    by_cases hdn : (outerLoop exec seq.actions seq.loop_count fuel 0
        { st with stop_requested := false, restart_requested := false }
        { success := false, steps_executed := 0,
          total_steps := seq.actions.length, error_message := "",
          failed_action_id := "", details := [] }).2.2 = true
    · simp [hdn, successJudgment]
    · simp [hdn] at hdone
  · have h : (executeSequenceSync
        (oracleExec ["0", "1", "2", "3", "4", "5", "6", "7"]) seqTen 1
        stInit).2.1.success = successJudgment 8 10 false := by rfl
    rw [h, successJudgment_eq]
    decide
  · have h : (executeSequenceSync
        (oracleExec ["0", "1", "2", "3", "4", "5", "6"]) seqTen 1
        stInit).2.1.success = successJudgment 7 10 false := by rfl
    rw [h, successJudgment_eq]
    decide

theorem c1_success_threshold_witness :
    (executeSequenceSync (oracleExec ["0", "1", "2", "3", "4", "5", "6", "7"])
        seqTen 1 stInit).2.2 = true ∧
      (executeSequenceSync (oracleExec ["0", "1", "2", "3", "4", "5", "6", "7"])
        seqTen 1 stInit).2.1.success = true :=
  ⟨rfl,
    (c1_success_threshold (oracleExec ["0", "1", "2", "3", "4", "5", "6", "7"])
      seqTen 1 stInit rfl).2.1⟩

/-- C10: in every run, `total_steps` is the length of the full action list
(disabled actions included) and `steps_executed` counts the success entries
accumulated in the details log across all loop iterations and restarts, so
it can exceed `total_steps` when `loop_count > 1` (concrete instance: one
action looped twice gives `steps_executed = 2 > 1 = total_steps`), while the
80% judgment compares the accumulated count against the single-pass
count. -/
theorem c10_step_accounting
    (exec : EngineState → MacroAction → Bool × EngineState)
    (seq : MacroSequence) (fuel : ℕ) (st : EngineState) :
    ((executeSequenceSync exec seq fuel st).2.1.total_steps =
        seq.actions.length ∧
      (executeSequenceSync exec seq fuel st).2.1.steps_executed =
        successCount (executeSequenceSync exec seq fuel st).2.1.details) ∧
    (executeSequenceSync (oracleExec ["0"]) seqOne 2 stInit).2.1.steps_executed = 2 ∧
    (executeSequenceSync (oracleExec ["0"]) seqOne 2 stInit).2.1.total_steps = 1 ∧
    (executeSequenceSync (oracleExec ["0"]) seqOne 2 stInit).2.1.success = true := by
  refine ⟨?_, rfl, rfl, ?_⟩
  · have hout := outerLoop_preserves
      (fun r => r.steps_executed = successCount r.details ∧
        r.total_steps = seq.actions.length)
      (fun r i b m hr => add_step_result_inv r i b m _ hr)
      exec seq.actions seq.loop_count fuel 0
      { st with stop_requested := false, restart_requested := false }
      { success := false, steps_executed := 0,
        total_steps := seq.actions.length, error_message := "",
        failed_action_id := "", details := [] }
      ⟨rfl, rfl⟩
    simp only [executeSequenceSync]
    by_cases hdn : (outerLoop exec seq.actions seq.loop_count fuel 0
        { st with stop_requested := false, restart_requested := false }
        { success := false, steps_executed := 0,
          total_steps := seq.actions.length, error_message := "",
          failed_action_id := "", details := [] }).2.2 = true
    · simpa [hdn] using ⟨hout.2, hout.1⟩
    · simpa [hdn] using ⟨hout.2, hout.1⟩
  · have h : (executeSequenceSync (oracleExec ["0"]) seqOne 2
        stInit).2.1.success = successJudgment 2 1 false := by rfl
    rw [h, successJudgment_eq]
    decide

/-- C2: an enabled IMAGE_CLICK action `a` whose search fails under the
`RESTART_SEQUENCE` policy has its own step recorded with `success = true`,
breaks the inner loop (the actions after it in the pass are not executed),
and makes the outer loop re-enter from the first action with the loop index
reset to 0; with the image never found the cycle repeats for the whole fuel
bound and the loop never completes by itself — only a stop request (or a
found image) can end the run. -/
theorem c2_restart_policy (env : ActionEnv) (templates : List ImageTemplate)
    (pre post : List MacroAction) (a : MacroAction) (tid : String) (cp : ℕ × ℕ)
    (lc : ℕ) (st : EngineState) (res : MacroExecutionResult)
    (hpre : ∀ p ∈ pre, p.enabled = true ∧
      ∀ s, executeAction env templates s p = (true, s))
    (hena : a.enabled = true)
    (hty : a.action_type = .IMAGE_CLICK)
    (hid : a.image_template_id = some tid)
    (hcp : a.click_position = some cp)
    (honf : a.on_image_not_found = .RESTART_SEQUENCE)
    (htf : (env.imageClick a.id).templateFound = true)
    (hfe : (env.imageClick a.id).fileExists = true)
    (hso : (env.imageClick a.id).screenshotOk = true)
    (hnf : (env.imageClick a.id).findResult.found = false)
    (hstop : st.stop_requested = false)
    (hrst : st.restart_requested = false)
    (hlc : 0 < lc) :
    innerLoop (executeAction env templates) st res (pre ++ a :: post) =
      ({ st with restart_requested := true },
        { res with
          details := res.details ++
            (pre.map (fun p => StepDetail.mk p.id true "성공") ++
              [StepDetail.mk a.id true "성공"])
          steps_executed := res.steps_executed + (pre.length + 1) }) ∧
    ∀ fuel, outerLoop (executeAction env templates) (pre ++ a :: post) lc fuel
        0 st res =
      (st,
        { res with
          details := res.details ++
            (List.replicate fuel
              (pre.map (fun p => StepDetail.mk p.id true "성공") ++
                [StepDetail.mk a.id true "성공"])).flatten
          steps_executed := res.steps_executed + fuel * (pre.length + 1) },
        false) := by
  have ha := executeAction_restart env templates a tid cp hty hid hcp honf htf
    hfe hso hnf st
  exact ⟨innerLoop_restart (executeAction env templates) pre post a st res hpre
      hstop hrst hena ha,
    outerLoop_restart (executeAction env templates) pre post a lc st res hpre
      hstop hrst hena ha hlc⟩

theorem c2_restart_policy_witness :
    innerLoop (executeAction envNotFound [tmplT]) stInit resInit
        ([actNext] ++ actRestart :: [actSkip]) =
      ({ stInit with restart_requested := true },
        { resInit with
          details := resInit.details ++
            ([actNext].map (fun p => StepDetail.mk p.id true "성공") ++
              [StepDetail.mk actRestart.id true "성공"])
          steps_executed := resInit.steps_executed + ([actNext].length + 1) }) ∧
    ∀ fuel, outerLoop (executeAction envNotFound [tmplT])
        ([actNext] ++ actRestart :: [actSkip]) 1 fuel 0 stInit resInit =
      (stInit,
        { resInit with
          details := resInit.details ++
            (List.replicate fuel
              ([actNext].map (fun p => StepDetail.mk p.id true "성공") ++
                [StepDetail.mk actRestart.id true "성공"])).flatten
          steps_executed := resInit.steps_executed + fuel * ([actNext].length + 1) },
        false) :=
  c2_restart_policy envNotFound [tmplT] [actNext] [actSkip] actRestart "tid"
    (1, 1) 1 stInit resInit
    (by
      intro p hp
      simp only [List.mem_singleton] at hp
      subst hp
      exact ⟨rfl, fun s => rfl⟩)
    rfl rfl rfl rfl rfl rfl rfl rfl rfl rfl rfl (by decide)

/-- C3 counterexample: in a run of `[actSkip, actNext]` where `actSkip`'s
image search fails under `SKIP_TO_NEXT`, the run indeed continues to the next
action, but the skipping step is recorded in the details with
`success = true` — not as a failure, contradicting the claim's "recorded in
the result's details as a failure". -/
theorem c3_skip_counterexample :
    ((executeSequenceSync (executeAction envNotFound [tmplT]) seqSkip 1
        stInit).2.1.details.map (fun d => (d.action_id, d.success))) =
      [("skip", true), ("next", true)] ∧
    ¬ ∃ d ∈ (executeSequenceSync (executeAction envNotFound [tmplT]) seqSkip 1
        stInit).2.1.details, d.action_id = "skip" ∧ d.success = false := by
  exact ⟨rfl, by decide⟩

/-- C3 amended: an enabled IMAGE_CLICK action whose search fails under
`SKIP_TO_NEXT` does not halt the run — the loop continues with the next
action in list order — and the step is recorded in the details as a
*success* (`"성공"`); the failure is only written to the console log. -/
theorem c3_skip_amended (env : ActionEnv) (templates : List ImageTemplate)
    (a : MacroAction) (rest : List MacroAction) (tid : String) (cp : ℕ × ℕ)
    (st : EngineState) (res : MacroExecutionResult)
    (hena : a.enabled = true)
    (hty : a.action_type = .IMAGE_CLICK)
    (hid : a.image_template_id = some tid)
    (hcp : a.click_position = some cp)
    (honf : a.on_image_not_found = .SKIP_TO_NEXT)
    (htf : (env.imageClick a.id).templateFound = true)
    (hfe : (env.imageClick a.id).fileExists = true)
    (hso : (env.imageClick a.id).screenshotOk = true)
    (hnf : (env.imageClick a.id).findResult.found = false)
    (hstop : st.stop_requested = false)
    (hrst : st.restart_requested = false) :
    innerLoop (executeAction env templates) st res (a :: rest) =
      innerLoop (executeAction env templates) st
        (res.add_step_result a.id true "성공") rest := by
  have ha := executeAction_skip env templates a tid cp hty hid hcp honf htf hfe
    hso hnf st
  simp [innerLoop, hstop, hena, ha, hrst]

theorem c3_skip_amended_witness :
    innerLoop (executeAction envNotFound [tmplT]) stInit resInit
        (actSkip :: [actNext]) =
      innerLoop (executeAction envNotFound [tmplT]) stInit
        (resInit.add_step_result actSkip.id true "성공") [actNext] :=
  c3_skip_amended envNotFound [tmplT] actSkip [actNext] "tid" (1, 1) stInit
    resInit rfl rfl rfl rfl rfl rfl rfl rfl rfl rfl rfl

/-- C5 counterexample: run `[IF "A" (always); ELSE "B"; IF "C" (image-found)]`
with `loop_count = 2`.  The details log shows the execution order
A, B, C, A, B, C, so at the second ELSE the nearest preceding IF is "A",
whose recorded condition result is `true` (the map holds
`[("A", true), ("C", false)]`), making the required else-result `false`;
but the ELSE computes `true` (the second entry of `else_log`), because "A"'s
second evaluation updated its entry in place and the dict's *last* value is
still "C"'s stale `false`. -/
theorem c5_else_counterexample :
    (executeSequenceSync (executeAction envNotFound [tmplT]) seqIfElse 2
        stInit).1.else_log = [false, true] ∧
    (executeSequenceSync (executeAction envNotFound [tmplT]) seqIfElse 2
        stInit).1.condition_results = [("A", true), ("C", false)] ∧
    ((executeSequenceSync (executeAction envNotFound [tmplT]) seqIfElse 2
        stInit).2.1.details.map (fun d => d.action_id)) =
      ["A", "B", "C", "A", "B", "C"] := by
  exact ⟨rfl, rfl, rfl⟩

/-- C5 amended: whenever at least one IF result has been recorded, the ELSE
computes the negation of the *last value stored in the insertion-ordered
engine-level map* (and succeeds).  This coincides with the nearest preceding
IF only while no IF re-executes: an IF that runs again in a later loop
iteration updates its entry in place, keeping its original position, so the
map's last value can belong to a different, earlier-executed IF. -/
theorem c5_else_amended (st : EngineState) (h : st.condition_results ≠ []) :
    ∃ last, dictLastValue st.condition_results = some last ∧
      executeElseAction st =
        (true, { st with else_log := st.else_log ++ [!last] }) := by
  have hne : (st.condition_results.map Prod.snd) ≠ [] := by simpa using h
  refine ⟨(st.condition_results.map Prod.snd).getLast hne, ?_, ?_⟩
  · exact List.getLast?_eq_getLast _ hne
  · unfold executeElseAction
    rw [show dictLastValue st.condition_results =
      some ((st.condition_results.map Prod.snd).getLast hne) from
      List.getLast?_eq_getLast _ hne]

theorem c5_else_amended_witness :
    ∃ last,
      dictLastValue (EngineState.mk false false [("A", true)] []).condition_results =
          some last ∧
        executeElseAction (EngineState.mk false false [("A", true)] []) =
          (true,
            { EngineState.mk false false [("A", true)] [] with
              else_log :=
                (EngineState.mk false false [("A", true)] []).else_log ++ [!last] }) :=
  c5_else_amended (EngineState.mk false false [("A", true)] []) (by decide)

end CaptureMacroSpec
